import Mathlib

/-!
Shallow embedding of the animated-background transition engine, the blob
cursor, and the loader scene of the van-gogh portfolio site, together with
proofs of the behavioural properties claimed in the specification.

The JavaScript sources embedded here are `js/background.js` (class
`Background`), the blob-cursor module (class `BlobCursor`),
`js/loader-scene.js`, the fragment shader of `js/shaders.js` (its
cross-fade `mix(c1, c2, uMix)`), and the texture-loading fallback logic.
Machine floats are modelled as exact rationals; the per-frame scheduling
(`requestAnimationFrame`) is modelled as explicit tick application, and
timer/frame handles as optional identifiers.
-/

namespace VanGogh

/-- An abstract GPU texture handle: either a successfully decoded image
(identified by a number) or the blank placeholder `new THREE.Texture()`. -/
inductive Texture where
  | loaded (id : Nat)
  | blank
  deriving DecidableEq, Repr

/-- A key passed to `Background.setTarget(textureName)`.  The `invalid`
constructor stands for any key not present in `this.textures`, for which
the lookup `this.textures[textureName]` is `undefined` (falsy). -/
inductive TexName where
  | texDefault
  | texOrange
  | texGraduation
  | invalid
  deriving DecidableEq, Repr

/-- The `this.textures` map of `Background` after `loadTextures` resolved:
three named slots. -/
structure TextureSet where
  texDefault : Texture
  texOrange : Texture
  texGraduation : Texture
  deriving DecidableEq, Repr

/-- `this.textures[textureName]`: `none` models the falsy `undefined`. -/
def lookupTexture (texs : TextureSet) : TexName → Option Texture
  | .texDefault => some texs.texDefault
  | .texOrange => some texs.texOrange
  | .texGraduation => some texs.texGraduation
  | .invalid => none

/-- `CONFIG.transitionSpeed` in `background.js`. -/
def transitionSpeed : ℚ := 1 / 100

/-- `CONFIG.timeStep` in `background.js`. -/
def timeStep : ℚ := 1 / 100

/-- The mutable state of a `Background` instance, together with the shader
uniforms it writes (`uTex1`, `uTex2`, `uMix`, `uTime`, `uResolution`). -/
structure BgState where
  currentSourceTexture : Texture
  targetTexture : Texture
  transitionProgress : ℚ
  isTransitioning : Bool
  time : ℚ
  uTex1 : Texture
  uTex2 : Texture
  uMix : ℚ
  uTime : ℚ
  uResolutionX : ℚ
  uResolutionY : ℚ
  deriving DecidableEq, Repr

/-- The state right after the constructor, `loadTextures` and
`setupMaterial` have run: both transition endpoints are the default
texture, both texture uniforms hold it, `uMix = 0`, `time = 0`,
and `uResolution` holds the window size. -/
def initBgState (texs : TextureSet) (w h : ℚ) : BgState where
  currentSourceTexture := texs.texDefault
  targetTexture := texs.texDefault
  transitionProgress := 0
  isTransitioning := false
  time := 0
  uTex1 := texs.texDefault
  uTex2 := texs.texDefault
  uMix := 0
  uTime := 0
  uResolutionX := w
  uResolutionY := h

/-- `Background.setTarget(textureName)`: looks the name up; returns
unchanged on a falsy lookup or when the looked-up texture is already the
current target; otherwise shifts `targetTexture` into
`currentSourceTexture`, installs the new target, rewrites `uTex1`,
`uTex2`, resets `uMix` and `transitionProgress` to 0 and starts
transitioning. -/
def setTarget (texs : TextureSet) (name : TexName) (s : BgState) : BgState :=
  match lookupTexture texs name with
  | none => s
  | some newTex =>
      if s.targetTexture = newTex then s
      else
        { s with
          currentSourceTexture := s.targetTexture
          targetTexture := newTex
          uTex1 := s.targetTexture
          uTex2 := newTex
          uMix := 0
          transitionProgress := 0
          isTransitioning := true }

/-- One tick of `Background.animate` (the `requestAnimationFrame`
re-scheduling and the draw call are outside the state): advance `time`
by `CONFIG.timeStep`, copy it to `uTime`; if transitioning, advance
`transitionProgress` by `CONFIG.transitionSpeed`, clamp at 1 (ending the
transition), and copy the result to `uMix`. -/
def animateB (s : BgState) : BgState :=
  let t := s.time + timeStep
  let s1 := { s with time := t, uTime := t }
  if s1.isTransitioning then
    let p := s1.transitionProgress + transitionSpeed
    if 1 ≤ p then
      { s1 with transitionProgress := 1, isTransitioning := false, uMix := 1 }
    else
      { s1 with transitionProgress := p, uMix := p }
  else s1

/-- `Background.handleResize`: only the renderer size and the
`uResolution` uniform change. -/
def handleResize (w h : ℚ) (s : BgState) : BgState :=
  { s with uResolutionX := w, uResolutionY := h }

/-- The cross-fade of the fragment shader at one sample point: given a
valuation `v` assigning each texture its sample value at that point,
`mix(c1, c2, uMix) = c1 * (1 - uMix) + c2 * uMix`.  The UV distortion and
the vignette depend only on `uTime`, `uResolution` and the coordinate, so
they are common factors when comparing two states that agree on those;
comparing the blends therefore compares the displayed outputs. -/
def displayed (v : Texture → ℚ) (s : BgState) : ℚ :=
  v s.uTex1 * (1 - s.uMix) + v s.uTex2 * s.uMix

/-- The operations that can reach a `Background` state after
initialization: a tick of `animate`, a `setTarget` call, a resize. -/
inductive BgOp where
  | tick
  | set (name : TexName)
  | resize (w h : ℚ)

/-- Apply one operation to a background state. -/
def applyBgOp (texs : TextureSet) (s : BgState) : BgOp → BgState
  | .tick => animateB s
  | .set name => setTarget texs name s
  | .resize w h => handleResize w h s

/-- Run a sequence of operations from the freshly initialized state. -/
def runBg (texs : TextureSet) (w h : ℚ) (ops : List BgOp) : BgState :=
  ops.foldl (applyBgOp texs) (initBgState texs w h)

/-- A concrete texture set with three distinct decoded textures, used by
the concrete counterexamples and witnesses. -/
def texsEx : TextureSet where
  texDefault := .loaded 0
  texOrange := .loaded 1
  texGraduation := .loaded 2

/-- A concrete per-pixel valuation distinguishing the three textures. -/
def vEx : Texture → ℚ
  | .loaded n => n
  | .blank => -1

/-- The state produced by calling `setTarget` with the orange key on the freshly
initialized background: the start of a default → orange transition. -/
def bgRun0 : BgState := setTarget texsEx .texOrange (initBgState texsEx 1920 1080)

/-!  Texture loading (`Background.loadTextures`).  `loadTex` never
rejects: its promise resolves with the decoded texture or with `null`
(modelled as `none`) after logging the failure, so no rejection escapes
the loading path. -/

/-- The slots of `this.textures` as they stand right after the three
`loadTex` promises resolved, before a caller reads them: `none` is the
JavaScript `null`/`undefined`. -/
structure TexSlots where
  texDefault : Option Texture
  texOrange : Option Texture
  texGraduation : Option Texture
  deriving DecidableEq, Repr

/-- JavaScript `a || b` on nullable texture references: the left operand
when it is non-null (truthy), otherwise the right one. -/
def jsOr (a b : Option Texture) : Option Texture :=
  match a with
  | some t => some t
  | none => b

/-- The fallback assignment in `loadTextures`:
`default = texDefault || new THREE.Texture()`,
`orange = texOrange || textures.default`,
`graduation = texGrad || textures.default`. -/
def loadTexturesResolve (od oo og : Option Texture) : TexSlots :=
  let d := jsOr od (some Texture.blank)
  { texDefault := d
    texOrange := jsOr oo d
    texGraduation := jsOr og d }

/-!  The blob cursor (`BlobCursor`). -/

/-- Two-dimensional screen coordinates. -/
structure Vec2 where
  x : ℚ
  y : ℚ
  deriving DecidableEq, Repr

/-- One SVG circle of the gooey cursor: its centre and base radius. -/
structure Blob where
  x : ℚ
  y : ℚ
  radius : ℚ
  deriving DecidableEq, Repr

/-- The per-modality part of `CONFIG` in the blob-cursor module. -/
structure BlobConfig where
  count : Nat
  size : ℚ
  lagPrimary : ℚ
  lagSecondary : ℚ
  deriving DecidableEq, Repr

/-- `CONFIG.desktop`. -/
def desktopConfig : BlobConfig where
  count := 12
  size := 180
  lagPrimary := 1 / 4
  lagSecondary := 1 / 2

/-- `CONFIG.mobile`. -/
def mobileConfig : BlobConfig where
  count := 5
  size := 110
  lagPrimary := 1 / 2
  lagSecondary := 7 / 10

/-- `CONFIG.touch.velocityMultiplier` (1.2). -/
def velocityMultiplier : ℚ := 6 / 5

/-- The literal `0.9` in the velocity-decay lines of
`BlobCursor.animate`. -/
def velocityDecay : ℚ := 9 / 10

/-- The normalization at the top of `BlobCursor.animate`:
`Math.min((currentTime - lastTime) / 16.67, 2)`. -/
def normalizeDelta (elapsedMs : ℚ) : ℚ :=
  min (elapsedMs / (1667 / 100)) 2

/-- The mutable state of a `BlobCursor` instance.  Pending
`requestAnimationFrame` / `setTimeout` callbacks are modelled as optional
identifiers next to the stored handles (`rafId`, `touchHoldTimer`,
`fadeOutTimer`); `opacity` is the value `setBlobOpacity` last wrote to
every blob element. -/
structure BlobState where
  mouse : Vec2
  target : Vec2
  velocity : Vec2
  lastPosition : Vec2
  isTouching : Bool
  isActive : Bool
  blobs : List Blob
  opacity : ℚ
  rafId : Option Nat
  pendingFrame : Option Nat
  touchHoldTimer : Option Nat
  pendingHold : Option Nat
  fadeOutTimer : Option Nat
  pendingFade : Option Nat
  deriving DecidableEq, Repr

/-- `cancelAnimationFrame` / `clearTimeout` on a stored handle: removes
the matching queued callback; a null or stale handle is a harmless
no-op. -/
def cancelHandle (handle pending : Option Nat) : Option Nat :=
  match handle with
  | none => pending
  | some i => if pending = some i then none else pending

/-- `BlobCursor.handleTouchStart(e)`: returns unchanged when `e.touches`
is empty; otherwise marks touching, clears any pending fade-out, snaps
`target`, `mouse` and every blob to the first touch point, activates, and
sets the blob opacity to 1.  (The `navigator.vibrate` haptic has no state
here.) -/
def handleTouchStart (touches : List Vec2) (s : BlobState) : BlobState :=
  match touches with
  | [] => s
  | t :: _ =>
      { s with
        isTouching := true
        pendingFade := cancelHandle s.fadeOutTimer s.pendingFade
        fadeOutTimer := none
        target := t
        mouse := t
        blobs := s.blobs.map fun b => { b with x := t.x, y := t.y }
        isActive := true
        opacity := 1 }

/-- `BlobCursor.updatePosition(x, y)`: derives `velocity` from the offset
to `lastPosition` times `CONFIG.touch.velocityMultiplier`, then saves the
pre-call `target` (not the new raw coordinates) into `lastPosition` and
installs the new target. -/
def updatePosition (x y : ℚ) (s : BlobState) : BlobState :=
  { s with
    velocity := ⟨(x - s.lastPosition.x) * velocityMultiplier,
                 (y - s.lastPosition.y) * velocityMultiplier⟩
    lastPosition := s.target
    target := ⟨x, y⟩ }

/-- The `this.blobs.forEach` body of `BlobCursor.animate`: each blob
chases the leading point (the smoothed mouse for the first blob, the
previous blob afterwards) with `lagPrimary` for the first blob and
`lagSecondary` for the rest, both scaled by the normalized delta. -/
def stepBlobs (lagP lagS delta : ℚ) : ℚ → ℚ → Bool → List Blob → List Blob
  | _, _, _, [] => []
  | tx, ty, first, b :: rest =>
      let lag := if first then lagP else lagS
      let adjustedLag := lag * delta
      let nx := b.x + (tx - b.x) * adjustedLag
      let ny := b.y + (ty - b.y) * adjustedLag
      { b with x := nx, y := ny } :: stepBlobs lagP lagS delta nx ny false rest

/-- One tick of `BlobCursor.animate` (frame re-scheduling and the SVG
attribute writes are outside the state): normalize the elapsed
milliseconds, move `mouse` toward `target` by `lagPrimary * delta`, run
the blob chain, then decay each velocity component by 0.9. -/
def blobTick (cfg : BlobConfig) (elapsedMs : ℚ) (s : BlobState) : BlobState :=
  let delta := normalizeDelta elapsedMs
  let mx := s.mouse.x + (s.target.x - s.mouse.x) * cfg.lagPrimary * delta
  let my := s.mouse.y + (s.target.y - s.mouse.y) * cfg.lagPrimary * delta
  { s with
    mouse := ⟨mx, my⟩
    blobs := stepBlobs cfg.lagPrimary cfg.lagSecondary delta mx my true s.blobs
    velocity := ⟨s.velocity.x * velocityDecay, s.velocity.y * velocityDecay⟩ }

/-- `BlobCursor.destroy()`: cancels the scheduled animation frame and any
stored timers (the stored handles themselves are not nulled), removes
every blob element from the DOM and empties the blob list. -/
def destroy (s : BlobState) : BlobState :=
  { s with
    pendingFrame := cancelHandle s.rafId s.pendingFrame
    pendingHold := cancelHandle s.touchHoldTimer s.pendingHold
    pendingFade := cancelHandle s.fadeOutTimer s.pendingFade
    blobs := [] }

/-!  The loader scene (`js/loader-scene.js`). -/

/-- The module-level state of the loader scene: the stored animation-frame
handle and its queued callback, the resize listener, DOM attachment, the
nullable module references, and flags recording which GPU resources have
had `.dispose()` called on them. -/
structure LoaderState where
  animationId : Option Nat
  pendingFrame : Option Nat
  resizeListenerOn : Bool
  containerPresent : Bool
  domAttached : Bool
  scenePresent : Bool
  cameraPresent : Bool
  rendererPresent : Bool
  materialPresent : Bool
  textureInMaterial : Bool
  meshPresent : Bool
  materialReleased : Bool
  textureReleased : Bool
  geometryReleased : Bool
  rendererReleased : Bool
  deriving DecidableEq, Repr

/-- `disposeLoaderScene()`: cancel the queued frame through the stored
`animationId` (the stored handle itself is not cleared), detach the
resize listener, remove the canvas while container and renderer both
exist, dispose the material, its bound texture, the mesh geometry and the
renderer, and null out the module references. -/
def disposeLoaderScene (s : LoaderState) : LoaderState where
  animationId := s.animationId
  pendingFrame := cancelHandle s.animationId s.pendingFrame
  resizeListenerOn := false
  containerPresent := s.containerPresent
  domAttached := if s.containerPresent && s.rendererPresent then false else s.domAttached
  scenePresent := false
  cameraPresent := false
  rendererPresent := false
  materialPresent := false
  textureInMaterial := s.textureInMaterial
  meshPresent := false
  materialReleased := s.materialReleased || s.materialPresent
  textureReleased := s.textureReleased || (s.materialPresent && s.textureInMaterial)
  geometryReleased := s.geometryReleased || s.meshPresent
  rendererReleased := s.rendererReleased || s.rendererPresent

/-!  Helper lemmas. -/

/-- A predicate preserved by every step is preserved by a `foldl` run. -/
lemma foldl_preserve {σ α : Type} {P : σ → Prop} (f : σ → α → σ)
    (hstep : ∀ s a, P s → P (f s a)) :
    ∀ (l : List α) (s : σ), P s → P (l.foldl f s) := by
  intro l
  induction l with
  | nil => intro s h; simpa using h
  | cons a rest ih => intro s h; simpa using ih (f s a) (hstep s a h)

/-- Every background operation keeps `transitionProgress` inside `[0, 1]`. -/
lemma applyBgOp_progress_bounds (texs : TextureSet) (s : BgState) (op : BgOp)
    (h0 : 0 ≤ s.transitionProgress) (h1 : s.transitionProgress ≤ 1) :
    0 ≤ (applyBgOp texs s op).transitionProgress ∧
    (applyBgOp texs s op).transitionProgress ≤ 1 := by
  cases op with
  | tick =>
      simp only [applyBgOp, animateB]
      split_ifs with hT hclamp
      · exact ⟨by norm_num, by norm_num⟩
      · push_neg at hclamp
        refine ⟨?_, le_of_lt hclamp⟩
        have hs : (0:ℚ) < transitionSpeed := by norm_num [transitionSpeed]
        simp only
        linarith
      · exact ⟨h0, h1⟩
  | set name =>
      cases hl : lookupTexture texs name with
      | none => simpa [applyBgOp, setTarget, hl] using ⟨h0, h1⟩
      | some t =>
          simp only [applyBgOp, setTarget, hl]
          split_ifs with he
          · exact ⟨h0, h1⟩
          · exact ⟨by norm_num, by norm_num⟩
  | resize w hh => simpa [applyBgOp, handleResize] using ⟨h0, h1⟩

/-- Progress never decreases over a tick, from any state with
`transitionProgress ≤ 1`. -/
lemma animateB_progress_mono (s : BgState) (h1 : s.transitionProgress ≤ 1) :
    s.transitionProgress ≤ (animateB s).transitionProgress := by
  simp only [animateB]
  split_ifs with hT hclamp
  · simpa using h1
  · have hs : (0:ℚ) < transitionSpeed := by norm_num [transitionSpeed]
    simp only
    linarith
  · simp

/-- Every reachable background state has `transitionProgress ∈ [0, 1]`. -/
lemma runBg_progress_bounds (texs : TextureSet) (w h : ℚ) (ops : List BgOp) :
    0 ≤ (runBg texs w h ops).transitionProgress ∧
    (runBg texs w h ops).transitionProgress ≤ 1 := by
  have hrun := foldl_preserve
    (P := fun s : BgState => 0 ≤ s.transitionProgress ∧ s.transitionProgress ≤ 1)
    (applyBgOp texs) (fun s op hp => applyBgOp_progress_bounds texs s op hp.1 hp.2)
    ops (initBgState texs w h) (by constructor <;> norm_num [initBgState])
  simpa [runBg] using hrun

/-- Every background operation preserves `uMix = transitionProgress`. -/
lemma applyBgOp_uMix (texs : TextureSet) (s : BgState) (op : BgOp)
    (h : s.uMix = s.transitionProgress) :
    (applyBgOp texs s op).uMix = (applyBgOp texs s op).transitionProgress := by
  cases op with
  | tick =>
      simp only [applyBgOp, animateB]
      split_ifs
      · simp
      · simp
      · simpa using h
  | set name =>
      cases hl : lookupTexture texs name with
      | none => simpa [applyBgOp, setTarget, hl] using h
      | some t =>
          simp only [applyBgOp, setTarget, hl]
          split_ifs with he
          · exact h
          · simp
  | resize w hh => simpa [applyBgOp, handleResize] using h

/-!  Claim theorems. -/

/-- C3: at every state reachable from initialization by `setTarget`
calls, `animate` ticks and resizes, `transitionProgress` lies in the
closed interval `[0, 1]`, and a further tick never decreases it. -/
theorem c3_progress_bounds_and_monotone (texs : TextureSet) (w h : ℚ) (ops : List BgOp) :
    0 ≤ (runBg texs w h ops).transitionProgress ∧
    (runBg texs w h ops).transitionProgress ≤ 1 ∧
    (runBg texs w h ops).transitionProgress ≤ (animateB (runBg texs w h ops)).transitionProgress := by
  obtain ⟨h0, h1⟩ := runBg_progress_bounds texs w h ops
  exact ⟨h0, h1, animateB_progress_mono _ h1⟩

/-- C4: when the looked-up texture is already the current target,
`setTarget` returns the state unchanged — progress, source, target,
transition flag and all uniforms included; the animation is neither
restarted nor reset. -/
theorem c4_setTarget_noop (texs : TextureSet) (name : TexName) (s : BgState)
    (t : Texture) (hfind : lookupTexture texs name = some t)
    (heq : s.targetTexture = t) : setTarget texs name s = s := by
  simp [setTarget, hfind, heq]

/-- Witness for C4 at a concrete input: re-requesting the default texture
on the freshly initialized background changes nothing. -/
theorem c4_setTarget_noop_witness :
    lookupTexture texsEx .texDefault = some (Texture.loaded 0) ∧
    (initBgState texsEx 1920 1080).targetTexture = Texture.loaded 0 ∧
    setTarget texsEx .texDefault (initBgState texsEx 1920 1080) = initBgState texsEx 1920 1080 :=
  ⟨by simp [lookupTexture, texsEx], by simp [initBgState, texsEx],
   c4_setTarget_noop texsEx .texDefault (initBgState texsEx 1920 1080) (Texture.loaded 0)
     (by simp [lookupTexture, texsEx]) (by simp [initBgState, texsEx])⟩

/-- C1 fails on the code: retargeting mid-transition does NOT re-capture
the interpolated blend.  `setTarget` installs the old TARGET texture as
the new source and resets `uMix` to 0, so the frame rendered right after
the call shows the old target at full strength, not the pre-call blend:
two ticks into a default → orange transition (progress 1/50) a retarget
to the graduation texture changes the displayed sample. -/
theorem c1_retarget_discontinuity_counterexample :
    (animateB (animateB bgRun0)).isTransitioning = true ∧
    0 < (animateB (animateB bgRun0)).transitionProgress ∧
    (animateB (animateB bgRun0)).transitionProgress < 1 ∧
    displayed vEx (setTarget texsEx .texGraduation (animateB (animateB bgRun0))) ≠
      displayed vEx (animateB (animateB bgRun0)) := by
  have h2 : animateB (animateB bgRun0) =
      BgState.mk (.loaded 0) (.loaded 1) (1/50) true (1/50) (.loaded 0) (.loaded 1)
        (1/50) (1/50) 1920 1080 := by
    norm_num [bgRun0, setTarget, lookupTexture, texsEx, initBgState, animateB,
      timeStep, transitionSpeed]
  rw [h2]
  norm_num [setTarget, lookupTexture, texsEx, displayed, vEx]

/-- C1 (amended): `setTarget` during an in-flight transition (uniforms in
sync with the state, `0 < progress < 1`) captures the OLD TARGET texture
— not the currently displayed blend — as the new source, resets progress
and `uMix` to 0 (so progress stays within `[0, 1]` across the retarget),
and the output displayed right after the call is the old target at full
strength; it differs from the pre-call output by
`(1 - progress) * (target sample - source sample)`, a discontinuity
whenever those samples differ. -/
theorem c1_retarget_captures_old_target (texs : TextureSet) (name : TexName)
    (newTex : Texture) (s : BgState) (v : Texture → ℚ)
    (hfind : lookupTexture texs name = some newTex)
    (hne : ¬ s.targetTexture = newTex)
    (_hT : s.isTransitioning = true)
    (_h0 : 0 < s.transitionProgress) (_h1 : s.transitionProgress < 1)
    (hu1 : s.uTex1 = s.currentSourceTexture) (hu2 : s.uTex2 = s.targetTexture)
    (hm : s.uMix = s.transitionProgress) :
    (setTarget texs name s).currentSourceTexture = s.targetTexture ∧
    (setTarget texs name s).targetTexture = newTex ∧
    (setTarget texs name s).transitionProgress = 0 ∧
    (setTarget texs name s).isTransitioning = true ∧
    0 ≤ (setTarget texs name s).transitionProgress ∧
    (setTarget texs name s).transitionProgress ≤ 1 ∧
    displayed v (setTarget texs name s) = v s.targetTexture ∧
    displayed v (setTarget texs name s) - displayed v s
      = (1 - s.transitionProgress) * (v s.targetTexture - v s.currentSourceTexture) := by
  have hset : setTarget texs name s =
      { s with
        currentSourceTexture := s.targetTexture
        targetTexture := newTex
        uTex1 := s.targetTexture
        uTex2 := newTex
        uMix := 0
        transitionProgress := 0
        isTransitioning := true } := by
    simp [setTarget, hfind, hne]
  rw [hset]
  refine ⟨rfl, rfl, rfl, rfl, le_refl 0, by norm_num, by simp [displayed], ?_⟩
  simp only [displayed, hu1, hu2, hm]
  ring

/-- Witness for the amended C1 at the concrete retarget of the
counterexample state. -/
theorem c1_retarget_captures_old_target_witness :
    (setTarget texsEx .texGraduation (animateB (animateB bgRun0))).currentSourceTexture
        = (animateB (animateB bgRun0)).targetTexture ∧
    (setTarget texsEx .texGraduation (animateB (animateB bgRun0))).targetTexture
        = Texture.loaded 2 ∧
    (setTarget texsEx .texGraduation (animateB (animateB bgRun0))).transitionProgress = 0 ∧
    (setTarget texsEx .texGraduation (animateB (animateB bgRun0))).isTransitioning = true ∧
    0 ≤ (setTarget texsEx .texGraduation (animateB (animateB bgRun0))).transitionProgress ∧
    (setTarget texsEx .texGraduation (animateB (animateB bgRun0))).transitionProgress ≤ 1 ∧
    displayed vEx (setTarget texsEx .texGraduation (animateB (animateB bgRun0)))
        = vEx (animateB (animateB bgRun0)).targetTexture ∧
    displayed vEx (setTarget texsEx .texGraduation (animateB (animateB bgRun0)))
          - displayed vEx (animateB (animateB bgRun0))
        = (1 - (animateB (animateB bgRun0)).transitionProgress)
            * (vEx (animateB (animateB bgRun0)).targetTexture
                - vEx (animateB (animateB bgRun0)).currentSourceTexture) := by
  have h2 : animateB (animateB bgRun0) =
      BgState.mk (.loaded 0) (.loaded 1) (1/50) true (1/50) (.loaded 0) (.loaded 1)
        (1/50) (1/50) 1920 1080 := by
    norm_num [bgRun0, setTarget, lookupTexture, texsEx, initBgState, animateB,
      timeStep, transitionSpeed]
  exact c1_retarget_captures_old_target texsEx .texGraduation (Texture.loaded 2)
    (animateB (animateB bgRun0)) vEx (by simp [lookupTexture, texsEx])
    (by rw [h2]; simp) (by rw [h2]) (by rw [h2]; norm_num) (by rw [h2]; norm_num)
    (by rw [h2]) (by rw [h2]) (by rw [h2])

/-- One tick of a transition that stays strictly short of completion:
progress and `uMix` advance by the speed, everything else relevant is
unchanged. -/
lemma animateB_step_linear (s : BgState) (hT : s.isTransitioning = true)
    (hlt : s.transitionProgress + transitionSpeed < 1) :
    (animateB s).isTransitioning = true ∧
    (animateB s).transitionProgress = s.transitionProgress + transitionSpeed ∧
    (animateB s).uMix = s.transitionProgress + transitionSpeed ∧
    (animateB s).currentSourceTexture = s.currentSourceTexture ∧
    (animateB s).targetTexture = s.targetTexture ∧
    (animateB s).uTex1 = s.uTex1 ∧
    (animateB s).uTex2 = s.uTex2 := by
  have hnc : ¬ 1 ≤ s.transitionProgress + transitionSpeed := by linarith
  simp [animateB, hT, hnc]

/-- While a transition stays strictly short of completion, `k + 1` ticks
advance progress (and `uMix`) linearly and change none of the texture
fields nor the transitioning flag. -/
lemma animateB_iterate_linear (k : Nat) :
    ∀ s : BgState, s.isTransitioning = true →
      s.transitionProgress + (k + 1 : ℚ) * transitionSpeed < 1 →
      (animateB^[k + 1] s).isTransitioning = true ∧
      (animateB^[k + 1] s).transitionProgress
          = s.transitionProgress + (k + 1 : ℚ) * transitionSpeed ∧
      (animateB^[k + 1] s).uMix = s.transitionProgress + (k + 1 : ℚ) * transitionSpeed ∧
      (animateB^[k + 1] s).currentSourceTexture = s.currentSourceTexture ∧
      (animateB^[k + 1] s).targetTexture = s.targetTexture ∧
      (animateB^[k + 1] s).uTex1 = s.uTex1 ∧
      (animateB^[k + 1] s).uTex2 = s.uTex2 := by
  induction k with
  | zero =>
      intro s hT hlt
      have hlt1 : s.transitionProgress + transitionSpeed < 1 := by
        push_cast at hlt
        linarith
      have hstep := animateB_step_linear s hT hlt1
      rw [Function.iterate_one]
      push_cast
      refine ⟨hstep.1, ?_, ?_, hstep.2.2.2.1, hstep.2.2.2.2.1,
        hstep.2.2.2.2.2.1, hstep.2.2.2.2.2.2⟩
      · rw [hstep.2.1]; ring
      · rw [hstep.2.2.1]; ring
  | succ k ih =>
      intro s hT hlt
      have hspeed : (0:ℚ) < transitionSpeed := by norm_num [transitionSpeed]
      have hkpos : (0:ℚ) ≤ (k + 1 : ℚ) := by positivity
      have hlt1 : s.transitionProgress + transitionSpeed < 1 := by
        push_cast at hlt
        nlinarith
      have hstep := animateB_step_linear s hT hlt1
      have hlt2 : (animateB s).transitionProgress + (k + 1 : ℚ) * transitionSpeed < 1 := by
        rw [hstep.2.1]
        push_cast at hlt ⊢
        linarith
      have hrec := ih (animateB s) hstep.1 hlt2
      rw [Function.iterate_succ_apply]
      refine ⟨hrec.1, ?_, ?_, ?_, ?_, ?_, ?_⟩
      · rw [hrec.2.1, hstep.2.1]; push_cast; ring
      · rw [hrec.2.2.1, hstep.2.1]; push_cast; ring
      · rw [hrec.2.2.2.1, hstep.2.2.2.1]
      · rw [hrec.2.2.2.2.1, hstep.2.2.2.2.1]
      · rw [hrec.2.2.2.2.2.1, hstep.2.2.2.2.2.1]
      · rw [hrec.2.2.2.2.2.2, hstep.2.2.2.2.2.2]

/-- One tick of a transition that reaches or passes 1: progress and
`uMix` clamp to exactly 1, the transitioning flag drops, and the texture
fields are untouched. -/
lemma animateB_step_complete (s : BgState) (hT : s.isTransitioning = true)
    (hpass : 1 ≤ s.transitionProgress + transitionSpeed) :
    (animateB s).transitionProgress = 1 ∧
    (animateB s).isTransitioning = false ∧
    (animateB s).uMix = 1 ∧
    (animateB s).currentSourceTexture = s.currentSourceTexture ∧
    (animateB s).targetTexture = s.targetTexture ∧
    (animateB s).uTex1 = s.uTex1 ∧
    (animateB s).uTex2 = s.uTex2 := by
  simp [animateB, hT, hpass]

/-- C2 fails on the code: on the 100th tick the default → orange
transition completes — progress is clamped to 1 and the controller goes
idle — but `transitionProgress` is NOT reset to 0 and the target is NOT
committed as the new source: `currentSourceTexture` still holds the old
default texture. -/
theorem c2_completion_counterexample :
    (animateB^[99] bgRun0).isTransitioning = true ∧
    1 ≤ (animateB^[99] bgRun0).transitionProgress + transitionSpeed ∧
    (animateB^[100] bgRun0).transitionProgress = 1 ∧
    (animateB^[100] bgRun0).isTransitioning = false ∧
    (animateB^[100] bgRun0).transitionProgress ≠ 0 ∧
    (animateB^[100] bgRun0).currentSourceTexture ≠ (animateB^[100] bgRun0).targetTexture ∧
    (animateB^[100] bgRun0).targetTexture = (animateB^[99] bgRun0).targetTexture := by
  have hrun : bgRun0 =
      BgState.mk (.loaded 0) (.loaded 1) 0 true 0 (.loaded 0) (.loaded 1) 0 0 1920 1080 := by
    norm_num [bgRun0, setTarget, lookupTexture, texsEx, initBgState]
  have h99 := animateB_iterate_linear 98 bgRun0 (by simp [hrun])
    (by simp [hrun]; norm_num [transitionSpeed])
  have hp99 : (animateB^[99] bgRun0).transitionProgress = 99 / 100 := by
    rw [h99.2.1, hrun]
    norm_num [transitionSpeed]
  have hpass : 1 ≤ (animateB^[99] bgRun0).transitionProgress + transitionSpeed := by
    rw [hp99]
    norm_num [transitionSpeed]
  have h100 : animateB^[100] bgRun0 = animateB (animateB^[99] bgRun0) :=
    Function.iterate_succ_apply' animateB 99 bgRun0
  have hstep := animateB_step_complete (animateB^[99] bgRun0) h99.1 hpass
  refine ⟨h99.1, hpass, by rw [h100]; exact hstep.1, by rw [h100]; exact hstep.2.1,
    by rw [h100, hstep.1]; norm_num, ?_, by rw [h100, hstep.2.2.2.2.1]⟩
  rw [h100, hstep.2.2.2.1, hstep.2.2.2.2.1, h99.2.2.2.1, h99.2.2.2.2.1, hrun]
  simp

/-- C2 (amended): on a tick whose progress reaches or passes 1, progress
and `uMix` clamp to exactly 1 and the controller leaves the transitioning
state, but `source` and `target` are left as they were and progress stays
at 1 — the commit of `target` into `source` (together with the reset of
progress to 0) only happens at the next effective `setTarget` call; with
`uMix = 1` the rendered output nevertheless equals the target alone, so
the completed transition is visually indistinguishable from a committed
one. -/
theorem c2_completion_clamps_without_commit (s : BgState) (texs : TextureSet)
    (name : TexName) (newTex : Texture) (v : Texture → ℚ)
    (hT : s.isTransitioning = true)
    (hpass : 1 ≤ s.transitionProgress + transitionSpeed)
    (hu2 : s.uTex2 = s.targetTexture)
    (hfind : lookupTexture texs name = some newTex)
    (hne : ¬ s.targetTexture = newTex) :
    (animateB s).transitionProgress = 1 ∧
    (animateB s).isTransitioning = false ∧
    (animateB s).uMix = 1 ∧
    (animateB s).currentSourceTexture = s.currentSourceTexture ∧
    (animateB s).targetTexture = s.targetTexture ∧
    displayed v (animateB s) = v s.targetTexture ∧
    (setTarget texs name (animateB s)).currentSourceTexture = s.targetTexture ∧
    (setTarget texs name (animateB s)).transitionProgress = 0 ∧
    (setTarget texs name (animateB s)).isTransitioning = true := by
  have hstep := animateB_step_complete s hT hpass
  have hne2 : ¬ (animateB s).targetTexture = newTex := by
    rw [hstep.2.2.2.2.1]
    exact hne
  have hset : setTarget texs name (animateB s) =
      { animateB s with
        currentSourceTexture := (animateB s).targetTexture
        targetTexture := newTex
        uTex1 := (animateB s).targetTexture
        uTex2 := newTex
        uMix := 0
        transitionProgress := 0
        isTransitioning := true } := by
    simp [setTarget, hfind, hne2]
  refine ⟨hstep.1, hstep.2.1, hstep.2.2.1, hstep.2.2.2.1, hstep.2.2.2.2.1, ?_, ?_, ?_, ?_⟩
  · simp [displayed, hstep.2.2.1, hstep.2.2.2.2.2.2, hu2]
  · rw [hset]
    exact hstep.2.2.2.2.1
  · rw [hset]
  · rw [hset]

/-- Witness for the amended C2 at the completing tick of the concrete
default → orange transition, retargeted afterwards to the graduation
texture. -/
theorem c2_completion_clamps_without_commit_witness :
    (animateB (animateB^[99] bgRun0)).transitionProgress = 1 ∧
    (animateB (animateB^[99] bgRun0)).isTransitioning = false ∧
    (animateB (animateB^[99] bgRun0)).uMix = 1 ∧
    (animateB (animateB^[99] bgRun0)).currentSourceTexture
        = (animateB^[99] bgRun0).currentSourceTexture ∧
    (animateB (animateB^[99] bgRun0)).targetTexture = (animateB^[99] bgRun0).targetTexture ∧
    displayed vEx (animateB (animateB^[99] bgRun0)) = vEx (animateB^[99] bgRun0).targetTexture ∧
    (setTarget texsEx .texGraduation (animateB (animateB^[99] bgRun0))).currentSourceTexture
        = (animateB^[99] bgRun0).targetTexture ∧
    (setTarget texsEx .texGraduation (animateB (animateB^[99] bgRun0))).transitionProgress = 0 ∧
    (setTarget texsEx .texGraduation (animateB (animateB^[99] bgRun0))).isTransitioning = true := by
  have hrun : bgRun0 =
      BgState.mk (.loaded 0) (.loaded 1) 0 true 0 (.loaded 0) (.loaded 1) 0 0 1920 1080 := by
    norm_num [bgRun0, setTarget, lookupTexture, texsEx, initBgState]
  have h99 := animateB_iterate_linear 98 bgRun0 (by simp [hrun])
    (by simp [hrun]; norm_num [transitionSpeed])
  have hpass : 1 ≤ (animateB^[99] bgRun0).transitionProgress + transitionSpeed := by
    rw [h99.2.1, hrun]
    norm_num [transitionSpeed]
  exact c2_completion_clamps_without_commit (animateB^[99] bgRun0) texsEx .texGraduation
    (Texture.loaded 2) vEx h99.1 hpass
    (by rw [h99.2.2.2.2.2.2, h99.2.2.2.2.1, hrun])
    (by simp [lookupTexture, texsEx])
    (by rw [h99.2.2.2.2.1, hrun]; simp)

/-- C5 fails for the background clock: no per-tick increment `c` makes
the time advance of the background equal `c` times the normalized delta for
both a 16.67 ms frame (delta 1) and a 33.34 ms frame (delta 2), because
`Background.animate` adds the fixed `CONFIG.timeStep` without measuring
elapsed time at all. -/
theorem c5_background_clock_counterexample :
    ¬ ∃ c : ℚ,
      (animateB (initBgState texsEx 1920 1080)).time - (initBgState texsEx 1920 1080).time
          = c * normalizeDelta (1667 / 100) ∧
      (animateB (initBgState texsEx 1920 1080)).time - (initBgState texsEx 1920 1080).time
          = c * normalizeDelta (1667 / 50) := by
  rintro ⟨c, h1, h2⟩
  have hd1 : normalizeDelta (1667 / 100) = 1 := by norm_num [normalizeDelta, min_def]
  have hd2 : normalizeDelta (1667 / 50) = 2 := by norm_num [normalizeDelta, min_def]
  have ht : (animateB (initBgState texsEx 1920 1080)).time
      - (initBgState texsEx 1920 1080).time = 1 / 100 := by
    norm_num [animateB, initBgState, timeStep]
  rw [ht, hd1] at h1
  rw [ht, hd2] at h2
  linarith

/-- C5 (amended): the tick of the blob cursor normalizes elapsed time so that
16.67 ms counts as 1.0 and clamps the normalized delta at 2.0, and scales
its smoothing step by that delta; the animation clock of the background,
however, advances by the fixed `CONFIG.timeStep` on every tick,
independent of elapsed time — it is not scaled by any normalized delta,
so its visual speed follows the display refresh rate. -/
theorem c5_delta_normalization (e : ℚ) (s : BgState) (cfg : BlobConfig) (b : BlobState) :
    normalizeDelta (1667 / 100) = 1 ∧
    normalizeDelta e ≤ 2 ∧
    (animateB s).time - s.time = timeStep ∧
    (blobTick cfg e b).mouse.x - b.mouse.x
        = (b.target.x - b.mouse.x) * cfg.lagPrimary * normalizeDelta e := by
  refine ⟨by norm_num [normalizeDelta, min_def], min_le_right _ _, ?_, ?_⟩
  · simp only [animateB]
    split_ifs <;> simp
  · simp only [blobTick]
    ring

/-- A concrete blob-cursor state: pointer resting at (10, 10), two blobs
parked at the off-screen initial position, a fade-out timer pending, and
the animation frame with handle 7 queued. -/
def blobStateEx : BlobState where
  mouse := ⟨10, 10⟩
  target := ⟨10, 10⟩
  velocity := ⟨0, 0⟩
  lastPosition := ⟨10, 10⟩
  isTouching := false
  isActive := false
  blobs := [⟨-500, -500, 110⟩, ⟨-500, -500, 80⟩]
  opacity := 0
  rafId := some 7
  pendingFrame := some 7
  touchHoldTimer := none
  pendingHold := none
  fadeOutTimer := some 3
  pendingFade := some 3

/-- C6: a touch-start event with at least one touch arriving while idle
(`isTouching` false) snaps `target`, `mouse` and every blob of the
trailing chain to the touch point inside the handler itself — before any
animation tick — and activates the effect at full opacity.  (The handler
does not actually inspect `isTouching`: it snaps on every touch-start.) -/
theorem c6_touch_snap (s : BlobState) (t : Vec2) (rest : List Vec2)
    (_hIdle : s.isTouching = false) :
    (handleTouchStart (t :: rest) s).mouse = t ∧
    (handleTouchStart (t :: rest) s).target = t ∧
    (∀ b ∈ (handleTouchStart (t :: rest) s).blobs, b.x = t.x ∧ b.y = t.y) ∧
    (handleTouchStart (t :: rest) s).isTouching = true ∧
    (handleTouchStart (t :: rest) s).isActive = true ∧
    (handleTouchStart (t :: rest) s).opacity = 1 := by
  refine ⟨rfl, rfl, ?_, rfl, rfl, rfl⟩
  intro b hb
  simp only [handleTouchStart, List.mem_map] at hb
  obtain ⟨b0, hb0, hbeq⟩ := hb
  rw [← hbeq]
  exact ⟨rfl, rfl⟩

/-- Witness for C6: a first touch at (3, 4) on the resting concrete state
snaps everything to (3, 4) immediately. -/
theorem c6_touch_snap_witness :
    (handleTouchStart [Vec2.mk 3 4] blobStateEx).mouse = Vec2.mk 3 4 ∧
    (handleTouchStart [Vec2.mk 3 4] blobStateEx).target = Vec2.mk 3 4 ∧
    (∀ b ∈ (handleTouchStart [Vec2.mk 3 4] blobStateEx).blobs,
      b.x = (Vec2.mk 3 4).x ∧ b.y = (Vec2.mk 3 4).y) ∧
    (handleTouchStart [Vec2.mk 3 4] blobStateEx).isTouching = true ∧
    (handleTouchStart [Vec2.mk 3 4] blobStateEx).isActive = true ∧
    (handleTouchStart [Vec2.mk 3 4] blobStateEx).opacity = 1 :=
  c6_touch_snap blobStateEx (Vec2.mk 3 4) [] rfl

/-- C7 fails on the code for the velocity derivation: after updates to
raw positions 20 and then 30 (from a state whose `target` and
`lastPosition` rest at 10), the velocity is `(30 - 10) * 1.2 = 24`, not
the claimed `(newRaw - previousRaw) * 1.2 = (30 - 20) * 1.2 = 12` —
`updatePosition` saves the pre-call `target` into `lastPosition`, which
lags the raw position by one extra update. -/
theorem c7_velocity_lag_counterexample :
    (updatePosition 30 30 (updatePosition 20 20 blobStateEx)).velocity.x
        ≠ ((30 : ℚ) - 20) * velocityMultiplier ∧
    (updatePosition 30 30 (updatePosition 20 20 blobStateEx)).velocity.x
        = ((30 : ℚ) - 10) * velocityMultiplier := by
  norm_num [updatePosition, blobStateEx, velocityMultiplier]

/-- Velocity under iterated ticks: each component decays geometrically by
the factor 0.9 per tick, with no other write. -/
lemma blobTick_iterate_velocity (cfg : BlobConfig) (e : ℚ) (k : Nat) :
    ∀ s : BlobState,
      ((blobTick cfg e)^[k] s).velocity.x = s.velocity.x * velocityDecay ^ k ∧
      ((blobTick cfg e)^[k] s).velocity.y = s.velocity.y * velocityDecay ^ k := by
  induction k with
  | zero => intro s; simp
  | succ k ih =>
      intro s
      rw [Function.iterate_succ_apply]
      have h := ih (blobTick cfg e s)
      have hx : (blobTick cfg e s).velocity.x = s.velocity.x * velocityDecay := rfl
      have hy : (blobTick cfg e s).velocity.y = s.velocity.y * velocityDecay := rfl
      rw [h.1, h.2, hx, hy]
      constructor <;> ring

/-- C7 (amended): `updatePosition(x, y)` sets
`velocity = (newRaw - lastPosition) * velocityMultiplier`, where
`lastPosition` holds the `target` saved by the PREVIOUS update — the raw
position from two updates back — not the immediately preceding raw
position; and with no new input, each velocity component decays
geometrically by the factor 0.9 per tick, so after `k` ticks the
magnitudes are scaled by `0.9 ^ k` exactly. -/
theorem c7_velocity_and_decay (s : BlobState) (x y x2 y2 e : ℚ)
    (cfg : BlobConfig) (k : Nat) :
    (updatePosition x y s).velocity.x = (x - s.lastPosition.x) * velocityMultiplier ∧
    (updatePosition x y s).velocity.y = (y - s.lastPosition.y) * velocityMultiplier ∧
    (updatePosition x y s).lastPosition = s.target ∧
    (updatePosition x y s).target = Vec2.mk x y ∧
    (updatePosition x2 y2 (updatePosition x y s)).velocity.x
        = (x2 - s.target.x) * velocityMultiplier ∧
    ((blobTick cfg e)^[k] s).velocity.x = s.velocity.x * velocityDecay ^ k ∧
    ((blobTick cfg e)^[k] s).velocity.y = s.velocity.y * velocityDecay ^ k ∧
    |((blobTick cfg e)^[k] s).velocity.x| = |s.velocity.x| * velocityDecay ^ k ∧
    ((blobTick cfg e)^[k] s).velocity.x ^ 2 + ((blobTick cfg e)^[k] s).velocity.y ^ 2
        = (s.velocity.x ^ 2 + s.velocity.y ^ 2) * (velocityDecay ^ 2) ^ k := by
  have hdec := blobTick_iterate_velocity cfg e k s
  have hd : (0 : ℚ) ≤ velocityDecay := by norm_num [velocityDecay]
  have hpow : (0 : ℚ) ≤ velocityDecay ^ k := pow_nonneg hd k
  refine ⟨rfl, rfl, rfl, rfl, rfl, hdec.1, hdec.2, ?_, ?_⟩
  · rw [hdec.1, abs_mul, abs_of_nonneg hpow]
  · rw [hdec.1, hdec.2]
    ring

/-- C8: after the three texture-load promises settle, no slot of
`this.textures` is null: a failed default becomes the blank texture, a
failed orange or graduation slot falls back to the (possibly blank)
default slot, and a successful load keeps its own texture.  (`loadTex`
resolves with `null` instead of rejecting, so the loading path produces
no unhandled rejection — totality of this resolution function.) -/
theorem c8_texture_fallbacks (od oo og : Option Texture) :
    ((loadTexturesResolve od oo og).texDefault).isSome = true ∧
    ((loadTexturesResolve od oo og).texOrange).isSome = true ∧
    ((loadTexturesResolve od oo og).texGraduation).isSome = true ∧
    (od = none → (loadTexturesResolve od oo og).texDefault = some Texture.blank) ∧
    (oo = none → (loadTexturesResolve od oo og).texOrange
        = (loadTexturesResolve od oo og).texDefault) ∧
    (og = none → (loadTexturesResolve od oo og).texGraduation
        = (loadTexturesResolve od oo og).texDefault) ∧
    (∀ t : Texture, od = some t → (loadTexturesResolve od oo og).texDefault = some t) := by
  cases od <;> cases oo <;> cases og <;> simp [loadTexturesResolve, jsOr]

/-- Witness for C8: with the default and orange loads failing and the
graduation load succeeding, the default slot becomes the blank texture
and the orange slot falls back to it; nothing is null. -/
theorem c8_texture_fallbacks_witness :
    ((loadTexturesResolve none none (some (Texture.loaded 5))).texDefault).isSome = true ∧
    ((loadTexturesResolve none none (some (Texture.loaded 5))).texOrange).isSome = true ∧
    ((loadTexturesResolve none none (some (Texture.loaded 5))).texGraduation).isSome = true ∧
    (loadTexturesResolve none none (some (Texture.loaded 5))).texDefault
        = some Texture.blank ∧
    (loadTexturesResolve none none (some (Texture.loaded 5))).texOrange
        = (loadTexturesResolve none none (some (Texture.loaded 5))).texDefault := by
  have h := c8_texture_fallbacks none none (some (Texture.loaded 5))
  exact ⟨h.1, h.2.1, h.2.2.1, h.2.2.2.1 rfl, h.2.2.2.2.1 rfl⟩

/-- Cancelling through the same stored handle twice is the same as
cancelling once. -/
lemma cancelHandle_idem (h p : Option Nat) :
    cancelHandle h (cancelHandle h p) = cancelHandle h p := by
  cases h with
  | none => rfl
  | some i => by_cases hp : p = some i <;> simp [cancelHandle, hp]

/-- A concrete fully-alive loader-scene state with frame handle 7
queued. -/
def loaderStateEx : LoaderState where
  animationId := some 7
  pendingFrame := some 7
  resizeListenerOn := true
  containerPresent := true
  domAttached := true
  scenePresent := true
  cameraPresent := true
  rendererPresent := true
  materialPresent := true
  textureInMaterial := true
  meshPresent := true
  materialReleased := false
  textureReleased := false
  geometryReleased := false
  rendererReleased := false

/-- C9: disposing the loader scene cancels the queued animation-frame
callback (when the stored handle matches it) and releases every owned
resource — material, geometry and renderer are disposed and the module
references nulled — and disposal is idempotent: a second
`disposeLoaderScene` (and likewise a second `BlobCursor.destroy`) raises
no error and leaves the state exactly as after the first call. -/
theorem c9_dispose_cancels_and_idempotent (s : LoaderState) (b : BlobState) (i : Nat)
    (hid : s.animationId = some i) (hpend : s.pendingFrame = some i) :
    (disposeLoaderScene s).pendingFrame = none ∧
    (disposeLoaderScene s).resizeListenerOn = false ∧
    (disposeLoaderScene s).scenePresent = false ∧
    (disposeLoaderScene s).materialPresent = false ∧
    (disposeLoaderScene s).meshPresent = false ∧
    (disposeLoaderScene s).rendererPresent = false ∧
    (s.materialPresent = true → (disposeLoaderScene s).materialReleased = true) ∧
    (s.meshPresent = true → (disposeLoaderScene s).geometryReleased = true) ∧
    (s.rendererPresent = true → (disposeLoaderScene s).rendererReleased = true) ∧
    disposeLoaderScene (disposeLoaderScene s) = disposeLoaderScene s ∧
    destroy (destroy b) = destroy b ∧
    (destroy b).blobs = [] := by
  refine ⟨?_, rfl, rfl, rfl, rfl, rfl, ?_, ?_, ?_, ?_, ?_, rfl⟩
  · simp [disposeLoaderScene, cancelHandle, hid, hpend]
  · intro hm; simp [disposeLoaderScene, hm]
  · intro hm; simp [disposeLoaderScene, hm]
  · intro hm; simp [disposeLoaderScene, hm]
  · simp [disposeLoaderScene, cancelHandle_idem]
  · simp [destroy, cancelHandle_idem]

/-- Witness for C9 at the concrete fully-alive loader state and the
concrete blob-cursor state. -/
theorem c9_dispose_witness :
    (disposeLoaderScene loaderStateEx).pendingFrame = none ∧
    (disposeLoaderScene loaderStateEx).resizeListenerOn = false ∧
    (disposeLoaderScene loaderStateEx).scenePresent = false ∧
    (disposeLoaderScene loaderStateEx).materialPresent = false ∧
    (disposeLoaderScene loaderStateEx).meshPresent = false ∧
    (disposeLoaderScene loaderStateEx).rendererPresent = false ∧
    (loaderStateEx.materialPresent = true →
      (disposeLoaderScene loaderStateEx).materialReleased = true) ∧
    (loaderStateEx.meshPresent = true →
      (disposeLoaderScene loaderStateEx).geometryReleased = true) ∧
    (loaderStateEx.rendererPresent = true →
      (disposeLoaderScene loaderStateEx).rendererReleased = true) ∧
    disposeLoaderScene (disposeLoaderScene loaderStateEx) = disposeLoaderScene loaderStateEx ∧
    destroy (destroy blobStateEx) = destroy blobStateEx ∧
    (destroy blobStateEx).blobs = [] :=
  c9_dispose_cancels_and_idempotent loaderStateEx blobStateEx 7 rfl rfl

/-- C10: from the moment the shader material exists, the uniform `uMix`
equals `transitionProgress` at every reachable state — initialization
sets both to 0, an effective `setTarget` resets both to 0, a tick writes
the advanced progress to both, and a resize touches neither. -/
theorem c10_uMix_equals_progress (texs : TextureSet) (w h : ℚ) (ops : List BgOp) :
    (runBg texs w h ops).uMix = (runBg texs w h ops).transitionProgress := by
  have hrun := foldl_preserve
    (P := fun s : BgState => s.uMix = s.transitionProgress)
    (applyBgOp texs) (fun s op hp => applyBgOp_uMix texs s op hp)
    ops (initBgState texs w h) (by simp [initBgState])
  simpa [runBg] using hrun

end VanGogh
